import Mathlib

/-!
Verification development for the geoquiz front-end (src/app.ts).

The program is a single controller class Game over the OpenLayers mapping
library plus the browser history and DOM APIs.  The embedding below models
the runtime state of the controller explicitly: the layer sources, the popup
element, the selected country code, the navigation state string and the
browser history list.  Browser and library calls that only schedule work or
mutate external state are recorded as explicit effects, in the order the
code performs them.  JS property reads that may yield undefined are Option
valued; statements that would throw a TypeError return Except.error.
-/

/-- Modelled from the spec: the entries of the fetched countries.json file,
which is not part of the repository, follow the declared CountryInfo shape
of the data model: an emoji, a display name, and latitude and longitude
coordinates.  The code in loadWorld additionally reads the properties named
lat and long from these JS objects; those are not fields of the declared
CountryInfo shape, and reading an absent JS property yields undefined, so
they are modelled as Option values (none when the data follows the declared
shape). -/
structure CountryJson where
  emoji : String
  name : String
  latitude : ℚ
  longitude : ℚ
  lat : Option ℚ
  long : Option ℚ
  deriving DecidableEq, Repr

/-- Result of the ol fromLonLat reprojection.  The Web Mercator arithmetic
is floating point and irrelevant to every claim; the model records which
geographic coordinate pair the code hands to the projection, keeping
distinct inputs distinct (the constructor is injective). -/
structure Projected where
  lon : Option ℚ
  lat : Option ℚ
  deriving DecidableEq, BEq, Repr

/-- Model of ol fromLonLat, applied to the pair the code passes. -/
def fromLonLat (lonlat : Option ℚ × Option ℚ) : Projected :=
  { lon := lonlat.1, lat := lonlat.2 }

/-- The label payload set on a feature at load time: short form and long
form of the label text. -/
structure LabelPayload where
  short : String
  long : String
  deriving DecidableEq, Repr

/-- A map feature as built by the code: a point geometry, an optional iso2
country-code property and an optional label payload (a get of an absent
property yields undefined, modelled as none). -/
structure MapFeature where
  geometry : Projected
  iso2 : Option String
  label : Option LabelPayload
  deriving DecidableEq, Repr

/-- One browser history entry as pushed by history.pushState: the state
data argument and the url argument. -/
structure HistoryEntry where
  data : Option String
  url : String
  deriving DecidableEq, Repr

/-- Observable effects of the controller, in program order: clearing the two
layer sources, removing the popup element from the DOM, scheduling the two
world loads, and pushing a history entry. -/
inductive Effect where
  | clearLabelSource
  | clearPolygonSource
  | removePopup
  | loadWorld
  | loadCountryPolygons
  | pushHistory (data : Option String) (url : String)
  deriving DecidableEq, Repr

/-- The in-memory state of the Game controller, together with the pieces of
browser state it interacts with: the history entry list and the current
document URL.  The document URL is represented by its query string, the only
part of it the program ever touches; it is what the pushState url argument
is resolved against. -/
structure Game where
  state : Option String
  selected : Option String
  countries : List (String × CountryJson)
  labelSource : Option (List MapFeature)
  polygonSource : Option (List MapFeature)
  popupInDom : Bool
  popupText : String
  popupPosition : Option (ℚ × ℚ)
  history : List HistoryEntry
  location : String

/-- JS truthiness of the nullable state string: undefined and the empty
string are falsy, every other string is truthy. -/
def truthy : Option String → Bool
  | none => false
  | some s => !s.isEmpty

/-- The url argument the code passes to history.pushState: a query string
for a non-null state, the empty string otherwise. -/
def urlArg : Option String → String
  | some s => "?c=" ++ s
  | none => ""

/-- Value of the query parameter c carried by a url string, if any. -/
def queryC (url : String) : Option String :=
  if url.take 3 = "?c=" then some (url.drop 3) else none

/-- Resolution of a pushState url argument against the current document URL
(both represented by their query strings): per the URL standard the empty
relative url resolves to the current URL unchanged, its query string
included, while a query-only url keeps the path and replaces the query. -/
def resolveUrl (current : String) (url : String) : String :=
  if url.isEmpty then current else url

/-- Game.endState: on a falsy state, clear both layer sources and remove the
popup container from the DOM; otherwise the branch is empty. -/
def endState (g : Game) : Game × List Effect :=
  if !truthy g.state then
    ({ g with labelSource := none, polygonSource := none, popupInDom := false },
     [Effect.clearLabelSource, Effect.clearPolygonSource, Effect.removePopup])
  else
    (g, [])

/-- Effects of Game.loadCountry, an unimplemented stub with an empty body. -/
def loadCountryEffects : List Effect := []

/-- Game.startState: on a falsy state, schedule loadWorld and
loadCountryPolygons; otherwise call the loadCountry stub. -/
def startState (g : Game) : Game × List Effect :=
  if !truthy g.state then
    (g, [Effect.loadWorld, Effect.loadCountryPolygons])
  else
    (g, loadCountryEffects)

/-- Game.switchState: end the current state, assign the new state, push a
history entry, then start the new state.  The pushState call receives the
raw url argument the code builds (recorded in the effect trace); the new
entry and the document URL carry that argument resolved against the current
document URL, as the browser resolves it. -/
def switchState (g : Game) (s : Option String) : Game × List Effect :=
  let e := endState g
  let g1 := { e.1 with state := s }
  let newUrl := resolveUrl g1.location (urlArg s)
  let g2 := { g1 with history := g1.history ++ [{ data := s, url := newUrl }],
                      location := newUrl }
  let st := startState g2
  (st.1, e.2 ++ [Effect.pushHistory s (urlArg s)] ++ st.2)

/-- A JS runtime error; the only one the modelled code can raise is a
TypeError from dereferencing undefined. -/
inductive JsError
  | typeError
  deriving DecidableEq, Repr

/-- A rejected fetch or a json body that fails to parse. -/
inductive FetchError
  | rejected (reason : String)
  deriving DecidableEq, Repr

/-- Indexing the countries mapping with a possibly undefined key, as the
bracket access in mapClick does: an absent key, or the key undefined, yields
undefined. -/
def countriesGet (countries : List (String × CountryJson)) :
    Option String → Option CountryJson
  | none => none
  | some key => (countries.find? (fun e => e.1 == key)).map (fun e => e.2)

/-- A map click event: the pixel handed to the hit test and the map
coordinate used to position the popup. -/
structure ClickEvent where
  pixel : ℚ × ℚ
  coordinate : ℚ × ℚ
  deriving DecidableEq, Repr

/-- The forEachFeatureAtPixel callback of Game.mapClick, run over every
enumerated feature in order (the callback returns no value, so the
enumeration never stops early).  For each feature it assigns the selected
code, then looks the code up in the countries mapping and writes the popup
text; if the lookup yields undefined the text interpolation throws a
TypeError, and the error carries the state mutated so far.  The Bool is the
clickHit flag. -/
def hitLoop : Game → Bool → List MapFeature → Except (JsError × Game) (Game × Bool)
  | g, b, [] => .ok (g, b)
  | g, _, f :: rest =>
    match countriesGet g.countries f.iso2 with
    | none => .error (JsError.typeError, { g with selected := f.iso2 })
    | some info =>
      hitLoop
        { g with selected := f.iso2,
                 popupText := info.emoji ++ " " ++ info.name }
        true rest

/-- Game.mapClick: run the hit-test callback over the enumerated features;
if any hit occurred, set the popup overlay position to the click coordinate
and pan the popup into view.  The Nat counts the panIntoView calls of this
invocation. -/
def mapClick (g : Game) (event : ClickEvent) (features : List MapFeature) :
    Except (JsError × Game) (Game × Nat) :=
  match hitLoop g false features with
  | .error e => .error e
  | .ok (g1, clickHit) =>
    if clickHit then
      .ok ({ g1 with popupPosition := some event.coordinate }, 1)
    else
      .ok (g1, 0)

/-- The style returned for a label feature at a given view resolution. -/
structure TextStyle where
  font : String
  text : String
  deriving DecidableEq, Repr

/-- The labelStyle callback: reads the label payload off the feature (a
TypeError if absent), picks the font by the resolution threshold 4000 and
the text by the threshold 10000. -/
def labelStyle (feature : MapFeature) (resolution : ℚ) : Except JsError TextStyle :=
  match feature.label with
  | none => .error JsError.typeError
  | some label =>
    let font := if resolution < 4000 then "bold 22px sans-serif" else "bold 15px sans-serif"
    let text := if resolution > 10000 then label.short else label.long
    .ok { font := font, text := text }

/-- The feature construction of Game.loadWorld: one point feature per entry
of the fetched mapping, whose geometry reprojects the long and lat
properties of the entry, tagged with the iso2 key, with the label payload
built once from the emoji and name. -/
def loadWorld (countries : List (String × CountryJson)) : List MapFeature :=
  countries.map fun e =>
    { geometry := fromLonLat (e.2.long, e.2.lat)
      iso2 := some e.1
      label := some { short := e.2.emoji, long := e.2.emoji ++ " " ++ e.2.name } }

/-- Game.loadWorld including the awaited fetch: a rejected fetch propagates,
there is no catch anywhere on the path. -/
def loadWorldFetched (res : Except FetchError (List (String × CountryJson))) :
    Except FetchError (List MapFeature) :=
  match res with
  | .error e => .error e
  | .ok cs => .ok (loadWorld cs)

/-- Stroke part of the polygon layer style. -/
structure StrokeStyle where
  color : String
  width : ℚ
  deriving DecidableEq, Repr

/-- Fill part of the polygon layer style. -/
structure FillStyle where
  color : String
  deriving DecidableEq, Repr

/-- Style set on the polygon layer. -/
structure PolygonStyle where
  stroke : StrokeStyle
  fill : FillStyle
  deriving DecidableEq, Repr

/-- The constant style Game.loadCountryPolygons sets on the polygon layer. -/
def polygonLayerStyle : PolygonStyle :=
  { stroke := { color := "blue", width := 2 }
    fill := { color := "rgba(0, 0, 255, 0.1)" } }

/-- The readFeatures reprojection of the GeoJSON document from geographic
coordinates to the display projection, ring by ring. -/
def readFeaturesLonLat (doc : List (List (ℚ × ℚ))) : List (List Projected) :=
  doc.map fun ring => ring.map fun p => fromLonLat (some p.1, some p.2)

/-- Game.loadCountryPolygons including the awaited fetch: a rejected fetch
propagates; on success the document is reprojected and the constant style
installed. -/
def loadCountryPolygonsFetched (res : Except FetchError (List (List (ℚ × ℚ)))) :
    Except FetchError (List (List Projected) × PolygonStyle) :=
  match res with
  | .error e => .error e
  | .ok doc => .ok (readFeaturesLonLat doc, polygonLayerStyle)

/-- Helper: startState returns the game unchanged, it only emits effects. -/
theorem startState_fst (g : Game) : (startState g).1 = g := by
  unfold startState
  split <;> rfl

/-- Helper: the effects of startState depend only on the truthiness of the
state. -/
theorem startState_snd (g : Game) : (startState g).2 =
    if truthy g.state then loadCountryEffects
    else [Effect.loadWorld, Effect.loadCountryPolygons] := by
  unfold startState
  cases h : truthy g.state <;> simp [h]

/-- Helper: endState does not touch the history. -/
theorem endState_history (g : Game) : (endState g).1.history = g.history := by
  unfold endState
  split <;> rfl

/-- Helper: endState does not touch the state string. -/
theorem endState_state (g : Game) : (endState g).1.state = g.state := by
  unfold endState
  split <;> rfl

/-- Helper: endState does not touch the document URL. -/
theorem endState_location (g : Game) : (endState g).1.location = g.location := by
  unfold endState
  split <;> rfl

/-- Helper: the history after switchState is the old history plus one entry
whose url is the pushState url argument resolved against the current
document URL. -/
theorem switchState_history (g : Game) (s : Option String) :
    (switchState g s).1.history
      = g.history ++ [{ data := s, url := resolveUrl g.location (urlArg s) }] := by
  show (startState _).1.history = _
  rw [startState_fst]
  show (endState g).1.history
      ++ [{ data := s, url := resolveUrl (endState g).1.location (urlArg s) }] = _
  rw [endState_history, endState_location]

/-- Helper: the document URL after switchState is the pushState url argument
resolved against the previous document URL. -/
theorem switchState_location (g : Game) (s : Option String) :
    (switchState g s).1.location = resolveUrl g.location (urlArg s) := by
  show (startState _).1.location = _
  rw [startState_fst]
  show resolveUrl (endState g).1.location (urlArg s) = _
  rw [endState_location]

/-- Helper: the effects of endState depend only on the truthiness of the
state. -/
theorem endState_snd (g : Game) : (endState g).2 =
    if truthy g.state then []
    else [Effect.clearLabelSource, Effect.clearPolygonSource, Effect.removePopup] := by
  unfold endState
  cases h : truthy g.state <;> simp [h]

/-- Concrete deep-linked game: the document was loaded at the query c=NL
and the state read from it, before any data has loaded. -/
def gDeep : Game :=
  { state := some "NL"
    selected := none
    countries := []
    labelSource := none
    polygonSource := none
    popupInDom := true
    popupText := ""
    popupPosition := none
    history := []
    location := "?c=NL" }

/-- C2 counterexample: at a game deep-linked at the query c=NL, switching to
the null state passes the empty url argument to history.pushState; the
browser resolves the empty url to the current document URL, so the pushed
entry and the document URL still carry the query parameter c equal to NL.
The query parameter is kept, not cleared. -/
theorem c2_counterexample_null_keeps_query :
    (switchState gDeep none).1.history = [{ data := none, url := "?c=NL" }]
  ∧ (switchState gDeep none).1.location = "?c=NL"
  ∧ queryC "?c=NL" = some "NL" :=
  ⟨rfl, rfl, by decide⟩

/-- C2 amended: every call of switchState pushes exactly one new history
entry onto the existing history and never replaces it.  For a non-null new
state, the pushed entry and the document URL carry the query parameter c
equal to the state.  For a null state, the code passes the empty url
argument to history.pushState, which resolves to the current document URL,
so the pushed entry keeps that URL, its existing query parameter included,
rather than clearing the query parameter. -/
theorem c2_amended_switchState_history (g : Game) (s : String) :
    (switchState g (some s)).1.history
        = g.history ++ [{ data := some s, url := "?c=" ++ s }]
  ∧ (switchState g (some s)).1.location = "?c=" ++ s
  ∧ (switchState g none).1.history
        = g.history ++ [{ data := none, url := g.location }]
  ∧ (switchState g none).1.location = g.location := by
  have hne : ("?c=" ++ s).isEmpty = false := by
    rw [Bool.eq_false_iff]
    intro h
    have h2 : ("?c=" ++ s) = "" := (String.isEmpty_iff _).mp h
    have h3 := congrArg String.length h2
    simp [String.length_append] at h3
    exact absurd h3.1 (by decide)
  refine ⟨?_, ?_, ?_, ?_⟩
  · rw [switchState_history]
    simp [resolveUrl, urlArg, hne]
  · rw [switchState_location]
    simp [resolveUrl, urlArg, hne]
  · rw [switchState_history]
    rfl
  · rw [switchState_location]
    rfl

/-- C5: switchState runs, in order, the endState effects computed from the
old state, then the history push for the new code, then the startState
effects computed from the already updated state; the in-memory state is
updated to the argument; and the effect trace is independent of the
countries mapping, so no validation of the code against known countries
happens and no error is raised for an unknown code. -/
theorem c5_switchState_order (g : Game) (c : Option String) :
    (switchState g c).2
        = (endState g).2 ++ [Effect.pushHistory c (urlArg c)]
            ++ (startState { (endState g).1 with
                  state := c,
                  history := (endState g).1.history
                    ++ [{ data := c,
                          url := resolveUrl (endState g).1.location (urlArg c) }],
                  location := resolveUrl (endState g).1.location (urlArg c) }).2
      ∧ (switchState g c).1.state = c
      ∧ (∀ cs, (switchState { g with countries := cs } c).2 = (switchState g c).2) := by
  refine ⟨rfl, ?_, ?_⟩
  · show (startState _).1.state = c
    rw [startState_fst]
  · intro cs
    show _ ++ _ ++ _ = _ ++ _ ++ _
    rw [endState_snd, endState_snd, startState_snd, startState_snd]

/-- C6: the two state hooks branch only on the truthiness of the current
state.  On a falsy state, startState schedules the world labels and the
country polygons and endState clears both layer sources and removes the
popup container; on a truthy state, startState only calls the loadCountry
stub, which does nothing, and endState performs no action at all. -/
theorem c6_startState_endState_branches (g : Game) :
    (truthy g.state = false →
        (startState g).2 = [Effect.loadWorld, Effect.loadCountryPolygons]
      ∧ (endState g).2
          = [Effect.clearLabelSource, Effect.clearPolygonSource, Effect.removePopup]
      ∧ (endState g).1.labelSource = none
      ∧ (endState g).1.polygonSource = none
      ∧ (endState g).1.popupInDom = false)
  ∧ (truthy g.state = true →
        (startState g).2 = loadCountryEffects
      ∧ loadCountryEffects = []
      ∧ endState g = (g, [])) := by
  constructor
  · intro h
    refine ⟨?_, ?_, ?_, ?_, ?_⟩ <;> simp [startState, endState, h]
  · intro h
    refine ⟨?_, rfl, ?_⟩ <;> simp [startState, endState, h]

/-- Witness for C6 at a concrete game in the world state. -/
def gW : Game :=
  { state := none
    selected := none
    countries := []
    labelSource := none
    polygonSource := some []
    popupInDom := true
    popupText := ""
    popupPosition := none
    history := []
    location := "" }

/-- C6 witness: the falsy branch of the claim evaluated at a concrete game
whose state is null. -/
theorem c6_witness :
    (startState gW).2 = [Effect.loadWorld, Effect.loadCountryPolygons]
  ∧ (endState gW).2
      = [Effect.clearLabelSource, Effect.clearPolygonSource, Effect.removePopup]
  ∧ (endState gW).1.labelSource = none
  ∧ (endState gW).1.polygonSource = none
  ∧ (endState gW).1.popupInDom = false :=
  (c6_startState_endState_branches gW).1 rfl

/-- C10: the state hooks test JS falsiness while the history push tests
null-ness.  Switching to the empty string makes startState and the next
endState take the same world branch as a null state, yet the pushed history
entry has url equal to the literal query string with an empty value, which
still carries the query parameter c, unlike the cleared url of a null
state. -/
theorem c10_empty_string_state (g : Game) :
    (startState { g with state := some "" }).2
        = [Effect.loadWorld, Effect.loadCountryPolygons]
  ∧ (startState { g with state := some "" }).2
        = (startState { g with state := none }).2
  ∧ (endState { g with state := some "" }).2
        = (endState { g with state := none }).2
  ∧ (switchState g (some "")).2
        = (endState g).2 ++ [Effect.pushHistory (some "") "?c="]
            ++ [Effect.loadWorld, Effect.loadCountryPolygons]
  ∧ urlArg (some "") = "?c="
  ∧ queryC (urlArg (some "")) = some ""
  ∧ queryC (urlArg none) = none := by
  exact ⟨rfl, rfl, rfl, rfl, rfl, by decide, by decide⟩

/-- C8: a click whose hit test enumerates no feature leaves the whole game
state unchanged and performs no popup positioning and no pan. -/
theorem c8_click_without_hit (g : Game) (event : ClickEvent) :
    mapClick g event [] = .ok (g, 0) := rfl

/-- Helper: one successful step of the hit-test callback. -/
theorem hitLoop_cons_some (g : Game) (b : Bool) (f : MapFeature)
    (rest : List MapFeature) (info : CountryJson)
    (h : countriesGet g.countries f.iso2 = some info) :
    hitLoop g b (f :: rest)
      = hitLoop { g with selected := f.iso2,
                         popupText := info.emoji ++ " " ++ info.name } true rest := by
  simp only [hitLoop, h]

/-- Helper: running the hit-test callback over a list of features whose
codes all resolve in the countries mapping succeeds, and the selected code
and popup text are those of the last feature of the list. -/
theorem hitLoop_last_valid (fs : List MapFeature) :
    ∀ (g : Game) (b : Bool) (f : MapFeature) (c : String) (info : CountryJson),
    (∀ x ∈ fs, (countriesGet g.countries x.iso2).isSome = true) →
    fs.getLast? = some f → f.iso2 = some c →
    countriesGet g.countries (some c) = some info →
    hitLoop g b fs
      = .ok ({ g with selected := some c,
                      popupText := info.emoji ++ " " ++ info.name }, true) := by
  induction fs with
  | nil =>
    intro g b f c info _ hlast _ _
    simp at hlast
  | cons x rest ih =>
    intro g b f c info hall hlast hc hinfo
    cases rest with
    | nil =>
      have hx : x = f := by simpa using hlast
      subst hx
      simp only [hitLoop, hc, hinfo]
    | cons y rest2 =>
      have hxv := hall x (List.mem_cons_self x _)
      obtain ⟨i, hi⟩ := Option.isSome_iff_exists.mp hxv
      rw [hitLoop_cons_some g b x (y :: rest2) i hi]
      exact ih _ true f c info
        (fun z hz => hall z (List.mem_cons_of_mem x hz))
        (by simpa using hlast) hc hinfo

/-- C1: a click whose hit test enumerates features that all carry codes
resolving in the loaded metadata mapping, the hit feature being the last one
enumerated, records that code as the selected country, sets the popup text
to the emoji of the country, a space, and its name, sets the popup overlay
position to the click coordinate, and pans the popup into view once. -/
theorem c1_mapClick_hit (g : Game) (event : ClickEvent) (fs : List MapFeature)
    (f : MapFeature) (c : String) (info : CountryJson)
    (hall : ∀ x ∈ fs, (countriesGet g.countries x.iso2).isSome = true)
    (hlast : fs.getLast? = some f)
    (hc : f.iso2 = some c)
    (hinfo : countriesGet g.countries (some c) = some info) :
    mapClick g event fs
      = .ok ({ g with selected := some c,
                      popupText := info.emoji ++ " " ++ info.name,
                      popupPosition := some event.coordinate }, 1) := by
  unfold mapClick
  rw [hitLoop_last_valid fs g false f c info hall hlast hc hinfo]
  rfl

/-- Concrete country entry used by the witnesses, in the declared
CountryInfo shape of the spec. -/
def infoW : CountryJson :=
  { emoji := "🇳🇱", name := "Netherlands", latitude := 52, longitude := 5,
    lat := none, long := none }

/-- Concrete labelled point feature used by the witnesses. -/
def fW : MapFeature :=
  { geometry := fromLonLat (none, none)
    iso2 := some "NL"
    label := some { short := "🇳🇱", long := "🇳🇱 Netherlands" } }

/-- Concrete feature without an iso2 property. -/
def f3W : MapFeature :=
  { geometry := fromLonLat (none, none), iso2 := none, label := none }

/-- Concrete feature with a code absent from the mapping. -/
def fXX : MapFeature :=
  { geometry := fromLonLat (none, none), iso2 := some "XX", label := none }

/-- Concrete game whose countries mapping holds the single entry NL. -/
def gNL : Game := { gW with countries := [("NL", infoW)] }

/-- Concrete click event used by the witnesses. -/
def eventW : ClickEvent := { pixel := (10, 20), coordinate := (3, 4) }

/-- C1 witness: a click hitting the NL feature at a concrete game. -/
theorem c1_witness :
    mapClick gNL eventW [fW]
      = .ok ({ gNL with selected := some "NL",
                        popupText := "🇳🇱 Netherlands",
                        popupPosition := some (3, 4) }, 1) :=
  c1_mapClick_hit gNL eventW [fW] fW "NL" infoW (by decide) (by decide) rfl (by decide)

/-- C9: the hit-test callback does not stop at the first hit.  With two
overlapping features whose codes both resolve, the recorded selection and
the popup text are those of the second, later feature, and the popup is
positioned and panned exactly once; and after a first successful hit the
callback still runs on the next feature, so a later feature without a
resolvable code makes the click raise, which it could not do had the
enumeration stopped at the first hit. -/
theorem c9_callback_runs_on_every_feature (g : Game) (event : ClickEvent)
    (f1 f2 : MapFeature) (c1 c2 : String) (i1 i2 : CountryJson)
    (h1 : f1.iso2 = some c1)
    (hi1 : countriesGet g.countries (some c1) = some i1)
    (h2 : f2.iso2 = some c2)
    (hi2 : countriesGet g.countries (some c2) = some i2) :
    mapClick g event [f1, f2]
      = .ok ({ g with selected := some c2,
                      popupText := i2.emoji ++ " " ++ i2.name,
                      popupPosition := some event.coordinate }, 1)
  ∧ (∀ f3 : MapFeature, f3.iso2 = none →
      mapClick g event [f1, f3]
        = .error (JsError.typeError,
            { g with selected := none,
                     popupText := i1.emoji ++ " " ++ i1.name })) := by
  constructor
  · unfold mapClick
    rw [hitLoop_last_valid [f1, f2] g false f2 c2 i2 ?_ (by simp) h2 hi2]
    · rfl
    · intro x hx
      rcases List.mem_pair.mp hx with h | h <;> subst h
      · rw [h1, hi1]; rfl
      · rw [h2, hi2]; rfl
  · intro f3 h3
    unfold mapClick
    rw [hitLoop_cons_some g false f1 [f3] i1 (by rw [h1]; exact hi1)]
    simp only [hitLoop, h3, countriesGet]

/-- C9 witness: two concrete overlapping features, the second valid in one
case and without a code in the other. -/
theorem c9_witness :
    mapClick gNL eventW [fW, fW]
      = .ok ({ gNL with selected := some "NL",
                        popupText := "🇳🇱 Netherlands",
                        popupPosition := some (3, 4) }, 1)
  ∧ mapClick gNL eventW [fW, f3W]
      = .error (JsError.typeError,
          { gNL with selected := none, popupText := "🇳🇱 Netherlands" }) := by
  have h := c9_callback_runs_on_every_feature gNL eventW fW fW "NL" "NL"
    infoW infoW rfl (by decide) rfl (by decide)
  exact ⟨h.1, h.2 f3W rfl⟩

/-- C7: no error handling exists.  A click on a feature whose code does not
resolve in the metadata mapping raises an unguarded TypeError carrying the
state mutated so far, and a rejected fetch propagates unhandled out of both
loaders. -/
theorem c7_unhandled_failures (g : Game) (event : ClickEvent) (f : MapFeature)
    (hmiss : countriesGet g.countries f.iso2 = none) (e : FetchError) :
    mapClick g event [f]
        = .error (JsError.typeError, { g with selected := f.iso2 })
      ∧ loadWorldFetched (.error e) = .error e
      ∧ loadCountryPolygonsFetched (.error e) = .error e := by
  refine ⟨?_, rfl, rfl⟩
  unfold mapClick
  simp only [hitLoop, hmiss]

/-- C7 witness: a concrete click on a feature with the unknown code XX and a
concrete rejected fetch. -/
theorem c7_witness :
    mapClick gNL eventW [fXX]
        = .error (JsError.typeError, { gNL with selected := some "XX" })
      ∧ loadWorldFetched (.error (FetchError.rejected "network failure"))
          = .error (FetchError.rejected "network failure")
      ∧ loadCountryPolygonsFetched (.error (FetchError.rejected "network failure"))
          = .error (FetchError.rejected "network failure") :=
  c7_unhandled_failures gNL eventW fXX (by decide) (FetchError.rejected "network failure")

/-- C3: for a feature carrying a label payload, the style text is the short
emoji-only form exactly when the resolution exceeds 10000 and the long form
otherwise, and the font is the larger 22px one exactly when the resolution
is below 4000 and the smaller 15px one otherwise. -/
theorem c3_labelStyle_thresholds (f : MapFeature) (l : LabelPayload) (r : ℚ)
    (h : f.label = some l) :
    (10000 < r →
      labelStyle f r = .ok { font := if r < 4000 then "bold 22px sans-serif"
                                     else "bold 15px sans-serif",
                             text := l.short })
  ∧ (r ≤ 10000 →
      labelStyle f r = .ok { font := if r < 4000 then "bold 22px sans-serif"
                                     else "bold 15px sans-serif",
                             text := l.long })
  ∧ (r < 4000 →
      labelStyle f r = .ok { font := "bold 22px sans-serif",
                             text := if 10000 < r then l.short else l.long })
  ∧ (4000 ≤ r →
      labelStyle f r = .ok { font := "bold 15px sans-serif",
                             text := if 10000 < r then l.short else l.long }) := by
  refine ⟨?_, ?_, ?_, ?_⟩ <;> intro hr
  · have h2 : 10000 < r := hr
    simp [labelStyle, h, h2]
  · have h2 : ¬ (10000 < r) := not_lt.mpr hr
    simp [labelStyle, h, h2]
  · have h2 : r < 4000 := hr
    simp [labelStyle, h, h2]
  · have h2 : ¬ (r < 4000) := not_lt.mpr hr
    simp [labelStyle, h, h2]

/-- C3 witness: the concrete NL feature at the concrete resolutions 20000,
5000 and 100. -/
theorem c3_witness :
    labelStyle fW 20000 = .ok { font := "bold 15px sans-serif", text := "🇳🇱" }
  ∧ labelStyle fW 5000 = .ok { font := "bold 15px sans-serif",
                               text := "🇳🇱 Netherlands" }
  ∧ labelStyle fW 100 = .ok { font := "bold 22px sans-serif",
                              text := "🇳🇱 Netherlands" } := by
  refine ⟨?_, ?_, ?_⟩
  · have h := (c3_labelStyle_thresholds fW
      { short := "🇳🇱", long := "🇳🇱 Netherlands" } 20000 rfl).1 (by norm_num)
    rw [if_neg (by norm_num : ¬ ((20000:ℚ) < 4000))] at h
    exact h
  · have h := (c3_labelStyle_thresholds fW
      { short := "🇳🇱", long := "🇳🇱 Netherlands" } 5000 rfl).2.1 (by norm_num)
    rw [if_neg (by norm_num : ¬ ((5000:ℚ) < 4000))] at h
    exact h
  · have h := (c3_labelStyle_thresholds fW
      { short := "🇳🇱", long := "🇳🇱 Netherlands" } 100 rfl).2.2.1 (by norm_num)
    rw [if_neg (by norm_num : ¬ ((10000:ℚ) < 100))] at h
    exact h

/-- C4, evaluation of the code at a failing input: on a metadata entry of
the declared CountryInfo shape, the feature loadWorld builds does carry the
iso2 tag and the label payload of emoji and emoji-space-name built once at
load time, but its geometry reprojects the absent properties long and lat,
both undefined, and not the declared longitude and latitude coordinates of
the country. -/
theorem c4_loadWorld_geometry_not_declared_coords :
    loadWorld [("NL", infoW)]
        = [{ geometry := fromLonLat (none, none),
             iso2 := some "NL",
             label := some { short := "🇳🇱", long := "🇳🇱 Netherlands" } }]
      ∧ fromLonLat (some infoW.longitude, some infoW.latitude)
          = { lon := some 5, lat := some 52 }
      ∧ (fromLonLat (none, none)
          == fromLonLat (some infoW.longitude, some infoW.latitude)) = false :=
  ⟨rfl, rfl, by decide⟩
